import Mathlib

/-! Verification of the BIDS-app wrapper builder
(`src/pydra/compose/bids_app_wrapper/builder.py`): a shallow embedding of the
data model and of the staging, invocation-construction and extraction steps,
with theorems settling the specification's claims about them. -/

namespace BidsAppWrapper

/-- Members of the external frametree `Clinical` axes enumeration that the
builder refers to through `row_frequency`; only equality with `session`
matters to the builder (builder.py line 222). -/
inductive Clinical
  | session
  | subject
  | dataset
  | constant
deriving DecidableEq, Repr

/-- Python exceptions the builder's code paths can raise. -/
inductive PyError
  | nameError (n : String)
  | indexError
  | fileExistsError
deriving DecidableEq, Repr

/-- Configuration errors; the spec speaks of duplicate-name rejection. -/
inductive ConfigError
  | duplicateName (n : String)
deriving DecidableEq, Repr

/-- Input field descriptor (`BidsInput`, builder.py lines 30-35); the datatype
is modelled by its resolved class name. -/
structure BidsInput where
  name : String
  path : String
  datatype : String
deriving DecidableEq, Repr

/-- Output field descriptor (`BidsOutput`, builder.py lines 38-43). -/
structure BidsOutput where
  name : String
  datatype : String
  path : Option String := none
deriving DecidableEq, Repr

/-- Fixed container-internal derivatives path (builder.py line 273). -/
def CONTAINER_DERIV_PATH : String := "/frametree_bids_outputs"

/-- Fixed container-internal dataset path (builder.py line 274). -/
def CONTAINER_DATASET_PATH : String := "/frametree_bids_dataset"

/-- Default subject identifier (builder.py line 276). -/
def DEFAULT_BIDS_ID : String := "DEFAULT"

/-- Output path selection, builder.py lines 215-220: with no container image
the app output path is the host output directory (Native environment); with
an image it is the fixed container derivatives path (Docker environment). -/
def app_output_path (container_image : Option String) (app_output_dir : String) : String :=
  match container_image with
  | none => app_output_dir
  | some _ => CONTAINER_DERIV_PATH

/-- Analysis-level token selection, builder.py lines 222-226. -/
def analysis_level (row_frequency : Clinical) : String :=
  if row_frequency = Clinical.session then "participant" else "group"

/-- Construction of the main app task, builder.py lines 211-246. The local
`kwargs` is read (line 224, `kwargs["participant_label"] = row_id`) but its
initializer at line 211 is commented out, so the session branch raises
NameError for `kwargs`; the group branch reaches line 231, where the
undefined name `output_fields` (the output list is only ever defined as
BIDS_APP_OUTPUTS) raises NameError. No branch constructs the task, the
intermediate locals notwithstanding. -/
def build_main_task (container_image : Option String) (app_output_dir : String)
    (row_frequency : Clinical) (_row_id : String) : Except PyError (List String) :=
  let _out_path := app_output_path container_image app_output_dir
  if row_frequency = Clinical.session then
    let _level := "participant"
    Except.error (PyError.nameError "kwargs")
  else
    let _level := "group"
    Except.error (PyError.nameError "output_fields")

/-- Descriptor-name extraction, builder.py lines 155-161: after converting
the descriptor lists the builder only extracts the two name lists; no
uniqueness check (nor any other check) is performed on either list, so this
step never produces a configuration error. -/
def descriptor_names (inputs : List BidsInput) (outputs : List BidsOutput) :
    Except ConfigError (List String × List String) :=
  Except.ok (inputs.map (fun i => i.name), outputs.map (fun o => o.name))

/-- Sink registration performed by ToBids during staging, builder.py lines
307-308: one sink per input descriptor, in list order, duplicates included. -/
def to_bids_sinks (inputs : List BidsInput) : List (String × String × String) :=
  inputs.map (fun i => (i.name, i.datatype, i.path))

/-- Whitespace tokenization of a character list: maximal runs of non-space
characters, in order. -/
def tokenizeAux : List Char → List Char → List String
  | [], [] => []
  | [], cur => [String.mk cur.reverse]
  | c :: rest, cur =>
    if c = ' ' then
      match cur with
      | [] => tokenizeAux rest []
      | _ => String.mk cur.reverse :: tokenizeAux rest []
    else tokenizeAux rest (c :: cur)

/-- Model of shlex.split restricted to strings free of quote, escape and
newline characters (the mini-language's space-delimited key/value tokens):
whitespace-delimited tokenization. -/
def shlex_split (s : String) : List String := tokenizeAux s.data []

/-- builder.py line 303: `je_args = shlex.split(json_edits) if json_edits
else []` — Python truthiness of the string. -/
def je_args (json_edits : String) : List String :=
  if json_edits = "" then [] else shlex_split json_edits

/-- Python slice l[::2]: every element at an even index. -/
def everyEven {α : Type} : List α → List α
  | [] => []
  | [a] => [a]
  | a :: _ :: rest => a :: everyEven rest

/-- Python slice l[1::2]: every element at an odd index. -/
def everyOdd {α : Type} : List α → List α
  | [] => []
  | [_] => []
  | _ :: b :: rest => b :: everyOdd rest

/-- Effective JSON-edit list handed to JsonEdit.attr_converter, builder.py
lines 303-306: the fixed configured edits followed by
`zip(je_args[::2], je_args[1::2])`; Python's zip truncates to the shorter
list, exactly as List.zip does. -/
def effective_json_edits (fixed : List (String × String)) (json_edits : String) :
    List (String × String) :=
  fixed ++ List.zip (everyEven (je_args json_edits)) (everyOdd (je_args json_edits))

/-- Alternating key/value pairing of a token list: consecutive disjoint
pairs, with a trailing unpaired token dropped. -/
def pairUp {α : Type} : List α → List (α × α)
  | a :: b :: rest => (a, b) :: pairUp rest
  | _ => []

/-- ToBids row-writing loop, builder.py lines 309-315: iterates over the
provided input values; a value that is the absent marker (attrs.NOTHING,
modelled as `none`) is skipped with a non-fatal warning, every other value is
written to the addressed row. Returns the (name, value) writes in order and
the warned names in order. -/
def to_bids_row_writes : List (String × Option String) → List (String × String) × List String
  | [] => ([], [])
  | (n, none) :: rest =>
    ((to_bids_row_writes rest).1, n :: (to_bids_row_writes rest).2)
  | (n, some v) :: rest =>
    ((n, v) :: (to_bids_row_writes rest).1, (to_bids_row_writes rest).2)

/-- ToBids result, builder.py line 316: the row writes and warnings of the
loop, together with the completion component of the returned pair
`(frameset, True)`. -/
def to_bids (input_values : List (String × Option String)) :
    (List (String × String) × List String) × Bool :=
  (to_bids_row_writes input_values, true)

/-- Copy destination used by ExtractBids, builder.py lines 346-348:
`Path(dataset.id) / "derivatives" / app_name / ("sub-" + id)`. -/
def derivatives_dest (dataset_id app_name id : String) : String :=
  dataset_id ++ "/derivatives/" ++ app_name ++ "/sub-" ++ id

/-- Model of shutil.copytree(src, dst) with the default dirs_exist_ok=False:
creates dst as a copy of the source tree, raising FileExistsError when dst
already exists (never overwriting it). The filesystem is modelled as the list
of existing paths; the copied tree's contents are abstracted into the
destination path itself. -/
def copytree (fs : List String) (dst : String) : Except PyError (List String) :=
  if dst ∈ fs then Except.error PyError.fileExistsError else Except.ok (dst :: fs)

/-- Sink path for an output descriptor, builder.py lines 351-361:
`(output.path if truthy else "") + "@" + app_name`; Python truthiness sends
both None and the empty string to the empty prefix. -/
def output_sink_path (path : Option String) (app_name : String) : String :=
  (match path with
   | some s => if s = "" then "" else s
   | none => "") ++ "@" ++ app_name

/-- A value bound to a task output slot: a resolved path value, a tuple of
resolved path values, or a boolean (as in ToBids's completion True). -/
inductive TaskVal
  | path (s : String)
  | pathTuple (l : List String)
  | boolVal (b : Bool)
deriving DecidableEq, Repr

/-- ExtractBids return expression, builder.py line 365:
`tuple(output_paths) if len(outputs) > 1 else output_paths[0]` — indexing an
empty output_paths list raises IndexError. -/
def extract_return (outputs : List BidsOutput) (output_paths : List String) :
    Except PyError TaskVal :=
  if outputs.length > 1 then Except.ok (TaskVal.pathTuple output_paths)
  else
    match output_paths with
    | [] => Except.error PyError.indexError
    | p :: _ => Except.ok (TaskVal.path p)

/-- The output names ExtractBids declares, builder.py line 319. -/
def extract_bids_declared_outputs : List String := ["completed"]

/-- ExtractBids, builder.py lines 319-365: copy the app output directory to
the derivatives destination, register one sink per output descriptor, read
each output's resolved value back (`resolve` abstracts the external store
read `row[output.name]`), and return. The task declares the single output
"completed" (line 319), and a python-task with one declared output binds the
whole returned value to it, so the result binding maps "completed" to the
returned value. Results: the filesystem after the copy attempt, the
registered sinks, and the output binding or the raised error. -/
def extract_bids (fs : List String) (dataset_id app_name id : String)
    (outputs : List BidsOutput) (resolve : String → String) :
    List String × List (String × String × String) × Except PyError (List (String × TaskVal)) :=
  match copytree fs (derivatives_dest dataset_id app_name id) with
  | Except.error e => (fs, [], Except.error e)
  | Except.ok fs2 =>
    let sinks := outputs.map (fun o => (o.name, o.datatype, output_sink_path o.path app_name))
    let output_paths := outputs.map (fun o => resolve o.name)
    match extract_return outputs output_paths with
    | Except.error e => (fs2, sinks, Except.error e)
    | Except.ok v => (fs2, sinks, Except.ok [("completed", v)])

/-- Python types occurring as values of the dynamic parameters mapping, plus
the tuple type of the loop variable itself. -/
inductive PyType
  | bool
  | int
  | float
  | str
  | tuple
deriving DecidableEq, Repr

/-- Python class name of a PyType, as it appears in its repr. -/
def pyTypeName : PyType → String
  | PyType.bool => "bool"
  | PyType.int => "int"
  | PyType.float => "float"
  | PyType.str => "str"
  | PyType.tuple => "tuple"

/-- Python repr of the loop variable `param` of builder.py line 199:
`for param in parameters.items()` binds `param` to the (name, type) pair, so
its repr reads like ('smooth', <class 'int'>). -/
def param_repr (p : String × PyType) : String :=
  "('" ++ p.1 ++ "', <class '" ++ pyTypeName p.2 ++ "'>)"

/-- The Python type of the loop variable `param` itself: `parameters.items()`
yields (name, type) tuples, so `type(param)` is tuple for every entry. -/
def type_of_param (_p : String × PyType) : PyType := PyType.tuple

/-- Dynamic parameter argstr, builder.py lines 200-202: the f-string
interpolates the repr of the whole pair, and the guard compares
`type(param)` — the tuple type — with bool, so the value placeholder is
appended for every entry. -/
def param_argstr (p : String × PyType) : String :=
  let argstr := "--" ++ param_repr p
  if type_of_param p = PyType.bool then argstr else argstr ++ " %s"

/-- A shell task input field: its name, optional command-line position and
optional argstr (help strings elided). -/
structure ShellField where
  name : String
  position : Option Int := none
  argstr : Option String := none
deriving DecidableEq, Repr

/-- Dynamic parameter field appended to the input list, builder.py lines
203-209: keyed by the loop variable (the pair), with the argstr above and no
position. -/
def param_field (p : String × PyType) : ShellField :=
  { name := param_repr p, argstr := some (param_argstr p) }

/-- The static shell field list BIDS_APP_INPUTS, builder.py lines 368-430:
name, position and argstr of each field. setup_completed carries no argstr
and so contributes nothing to the command line. -/
def BIDS_APP_INPUTS : List ShellField :=
  [ { name := "dataset_path", position := some 1, argstr := some "'{dataset_path}'" },
    { name := "output_path", position := some 2, argstr := some "'{output_path}'" },
    { name := "analysis_level", position := some 3, argstr := some "" },
    { name := "participant_label", position := some 4, argstr := some "--participant-label " },
    { name := "flags", position := some (-1), argstr := some "" },
    { name := "work_dir", argstr := some "--work-dir '{work_dir}'" },
    { name := "setup_completed" } ]

/-- builder.py lines 197-209: the copied BIDS_APP_INPUTS extended with one
field per entry of the parameters mapping. -/
def input_fields (parameters : List (String × PyType)) : List ShellField :=
  BIDS_APP_INPUTS ++ parameters.map param_field

/-- Sorting key of a positioned field. -/
def posKey (f : ShellField) : Int := f.position.getD 0

/-- Insertion into a position-sorted list. -/
def insertByPos (f : ShellField) : List ShellField → List ShellField
  | [] => [f]
  | g :: gs => if posKey f ≤ posKey g then f :: g :: gs else g :: insertByPos f gs

/-- Insertion sort of shell fields by position. -/
def sortByPos : List ShellField → List ShellField
  | [] => []
  | f :: fs => insertByPos f (sortByPos fs)

/-- Whether a field carries a non-negative position. -/
def hasNonnegPos (f : ShellField) : Bool :=
  match f.position with
  | some p => decide (0 ≤ p)
  | none => false

/-- Whether a field carries a negative position. -/
def hasNegPos (f : ShellField) : Bool :=
  match f.position with
  | some p => decide (p < 0)
  | none => false

/-- Command-line field ordering of the external pydra shell-task machinery
(its position sort): fields with non-negative positions sorted ascending,
then fields without a position in declaration order, then fields with
negative positions — which count from the end of the command line — sorted
ascending. -/
def position_sort (fields : List ShellField) : List ShellField :=
  sortByPos (fields.filter hasNonnegPos)
    ++ fields.filter (fun f => f.position.isNone)
    ++ sortByPos (fields.filter hasNegPos)

/-- The names of the fields contributing to the app command line, in
command-line order; a field without an argstr is omitted by the shell
machinery. -/
def cli_field_order (parameters : List (String × PyType)) : List String :=
  ((position_sort (input_fields parameters)).filter (fun f => f.argstr.isSome)).map
    (fun f => f.name)

/-- The invocation order exactly as the claim words it: dataset path, output
path, analysis-level token, participant label, then the free-form flag
string, then the work directory, then one flag per dynamic parameter. -/
def claimed_field_order (parameters : List (String × PyType)) : List String :=
  ["dataset_path", "output_path", "analysis_level", "participant_label",
   "flags", "work_dir"] ++ parameters.map (fun p => param_repr p)

/-! Helper lemmas shared by the claim theorems. -/

theorem zip_even_odd_eq_pairUp {α : Type} : ∀ l : List α,
    List.zip (everyEven l) (everyOdd l) = pairUp l
  | [] => rfl
  | [_] => rfl
  | a :: b :: rest => by
    simp only [everyEven, everyOdd, List.zip_cons_cons, pairUp]
    exact congrArg _ (zip_even_odd_eq_pairUp rest)

theorem pairUp_length {α : Type} : ∀ l : List α, (pairUp l).length = l.length / 2
  | [] => by simp [pairUp]
  | [_] => by simp [pairUp]
  | _ :: _ :: rest => by
    simp only [pairUp, List.length_cons, pairUp_length rest]
    omega

theorem to_bids_row_writes_eq (vals : List (String × Option String)) :
    to_bids_row_writes vals
      = (vals.filterMap (fun p => p.2.map (fun v => (p.1, v))),
         vals.filterMap (fun p => match p.2 with | none => some p.1 | some _ => none)) := by
  induction vals with
  | nil => rfl
  | cons p rest ih =>
    obtain ⟨n, v⟩ := p
    cases v <;> simp [to_bids_row_writes, List.filterMap_cons, ih]

theorem filter_nonneg_params (ps : List (String × PyType)) :
    (ps.map param_field).filter hasNonnegPos = [] := by
  induction ps with
  | nil => rfl
  | cons p rest ih => simpa [List.filter_cons, param_field, hasNonnegPos] using ih

theorem filter_neg_params (ps : List (String × PyType)) :
    (ps.map param_field).filter hasNegPos = [] := by
  induction ps with
  | nil => rfl
  | cons p rest ih => simpa [List.filter_cons, param_field, hasNegPos] using ih

theorem filter_none_params (ps : List (String × PyType)) :
    (ps.map param_field).filter (fun f => f.position.isNone) = ps.map param_field := by
  induction ps with
  | nil => rfl
  | cons p rest ih => simpa [List.filter_cons, param_field] using ih

theorem filter_argstr_params (ps : List (String × PyType)) :
    (ps.map param_field).filter (fun f => f.argstr.isSome) = ps.map param_field := by
  induction ps with
  | nil => rfl
  | cons p rest ih => simpa [List.filter_cons, param_field] using ih

theorem map_name_params (ps : List (String × PyType)) :
    (ps.map param_field).map (fun f => f.name) = ps.map (fun p => param_repr p) := by
  induction ps with
  | nil => rfl
  | cons p rest ih => simp [param_field, ih]

theorem cli_prefix_concrete :
    ((sortByPos (BIDS_APP_INPUTS.filter hasNonnegPos)).filter
        (fun f => f.argstr.isSome)).map (fun f => f.name)
      = ["dataset_path", "output_path", "analysis_level", "participant_label"] := by decide

theorem cli_mid_concrete :
    ((BIDS_APP_INPUTS.filter (fun f => f.position.isNone)).filter
        (fun f => f.argstr.isSome)).map (fun f => f.name)
      = ["work_dir"] := by decide

theorem cli_last_concrete :
    ((sortByPos (BIDS_APP_INPUTS.filter hasNegPos)).filter
        (fun f => f.argstr.isSome)).map (fun f => f.name)
      = ["flags"] := by decide

/-! Claim theorems. -/

/-- C2: evaluation of the code at the failing inputs. At the per-session
frequency the main-task construction raises NameError for `kwargs` (its
initializer is commented out), so no `--participant-label` flag is ever
added; at any other frequency the construction raises NameError for
`output_fields` before reaching the task. The analysis-level locals assigned
just before the failure do match the claim's tokens. -/
theorem c2_participant_label_never_built :
    build_main_task none "/out" Clinical.session "01"
        = Except.error (PyError.nameError "kwargs") ∧
    build_main_task none "/out" Clinical.dataset "01"
        = Except.error (PyError.nameError "output_fields") ∧
    build_main_task (some "bids/app:1.0") "/out" Clinical.subject "01"
        = Except.error (PyError.nameError "output_fields") ∧
    analysis_level Clinical.session = "participant" ∧
    analysis_level Clinical.dataset = "group" :=
  ⟨rfl, rfl, rfl, rfl, rfl⟩

/-- C3: the output-path argument value equals the fixed container-internal
derivatives path whenever a container image is configured, and the host
output directory when none is. -/
theorem c3_output_path_by_environment :
    (∀ image app_output_dir,
      app_output_path (some image) app_output_dir = CONTAINER_DERIV_PATH) ∧
    (∀ app_output_dir, app_output_path none app_output_dir = app_output_dir) :=
  ⟨fun _ _ => rfl, fun _ => rfl⟩

/-- C4 counterexample: a sidecar-edit string splitting into an odd number of
tokens is not a configuration error — the code returns normally, silently
dropping the trailing unpaired token ("b" here). -/
theorem c4_counterexample :
    effective_json_edits [("x", "0")] "a 1 b" = [("x", "0"), ("a", "1")] := by decide

/-- C4 amended: the user-supplied string is split into alternating key/value
pairs appended after the fixed configured edits, and an odd token count is
not an error: the pair list keeps exactly floor(token count / 2) pairs, the
trailing unpaired token being dropped. -/
theorem c4_edit_pairs_appended_odd_token_dropped
    (fixed : List (String × String)) (s : String) :
    effective_json_edits fixed s = fixed ++ pairUp (je_args s) ∧
    (pairUp (je_args s)).length = (je_args s).length / 2 := by
  constructor
  · unfold effective_json_edits
    rw [zip_even_odd_eq_pairUp]
  · exact pairUp_length _

/-- C5 counterexample: a configuration whose input list repeats the name "a"
is not rejected — the builder's only processing of the descriptor lists
before staging succeeds, and staging registers both identically-named
sinks. -/
theorem c5_counterexample :
    descriptor_names
        [{ name := "a", path := "anat/T1w", datatype := "NiftiGzX" },
         { name := "a", path := "anat/T1w", datatype := "NiftiGzX" }] []
      = Except.ok (["a", "a"], []) ∧
    to_bids_sinks
        [{ name := "a", path := "anat/T1w", datatype := "NiftiGzX" },
         { name := "a", path := "anat/T1w", datatype := "NiftiGzX" }]
      = [("a", "NiftiGzX", "anat/T1w"), ("a", "NiftiGzX", "anat/T1w")] :=
  ⟨rfl, rfl⟩

/-- C5 amended: the wrapper performs no duplicate-name rejection at all: the
pre-staging processing of the descriptor lists never fails, and staging
registers one sink per descriptor — duplicates included — so any
duplicate-name failure can only arise in the external store during
staging, not before it. -/
theorem c5_no_duplicate_rejection (inputs : List BidsInput) (outputs : List BidsOutput) :
    descriptor_names inputs outputs
        = Except.ok (inputs.map (fun i => i.name), outputs.map (fun o => o.name)) ∧
    (to_bids_sinks inputs).length = inputs.length ∧
    (∀ i, i ∈ inputs → (i.name, i.datatype, i.path) ∈ to_bids_sinks inputs) := by
  refine ⟨rfl, by simp [to_bids_sinks], ?_⟩
  intro i hi
  exact List.mem_map.mpr ⟨i, hi, rfl⟩

/-- C5 witness: the amended theorem applied to a concrete duplicate-name
configuration. -/
theorem c5_witness :
    ("a", "NiftiGzX", "anat/T1w") ∈ to_bids_sinks
        [{ name := "a", path := "anat/T1w", datatype := "NiftiGzX" },
         { name := "a", path := "anat/T1w", datatype := "NiftiGzX" }] :=
  (c5_no_duplicate_rejection
      [{ name := "a", path := "anat/T1w", datatype := "NiftiGzX" },
       { name := "a", path := "anat/T1w", datatype := "NiftiGzX" }] []).2.2
    { name := "a", path := "anat/T1w", datatype := "NiftiGzX" } (by decide)

/-- C7: evaluation of the code at the failing inputs. The loop variable of
`for param in parameters.items()` is the (name, type) pair, so the
constructed flag string interpolates the pair's repr, and the value
placeholder is appended even for a boolean parameter because `type(param)`
is tuple, never bool. The claimed flags `--verbose` and `--smooth %s` are
never produced. -/
theorem c7_param_flag_uses_items_tuple :
    param_argstr ("verbose", PyType.bool) = "--('verbose', <class 'bool'>) %s" ∧
    param_argstr ("smooth", PyType.int) = "--('smooth', <class 'int'>) %s" ∧
    param_field ("verbose", PyType.bool)
      = { name := "('verbose', <class 'bool'>)",
          argstr := some "--('verbose', <class 'bool'>) %s" } ∧
    param_argstr ("verbose", PyType.bool) ≠ "--verbose" :=
  ⟨rfl, rfl, rfl, by decide⟩

/-- C1 counterexample: with no dynamic parameters the command-line field
order produced by the position sort differs from the order the claim states —
the flags field (position -1) stands last, after the work-dir field, not
before it. -/
theorem c1_counterexample : cli_field_order [] ≠ claimed_field_order [] := by decide

/-- C1 amended: the app invocation argument list is ordered as positional
dataset path, positional output path, positional analysis-level token,
optional participant-label flag, then the work-dir flag, then one flag per
dynamic parameter, and the free-form flag string last (its field carries
position -1, which counts from the end of the command line). -/
theorem c1_argument_order (parameters : List (String × PyType)) :
    cli_field_order parameters
      = ["dataset_path", "output_path", "analysis_level", "participant_label",
         "work_dir"] ++ parameters.map (fun p => param_repr p) ++ ["flags"] := by
  unfold cli_field_order position_sort input_fields
  simp only [List.filter_append, filter_nonneg_params, filter_neg_params, filter_none_params,
             List.append_nil, List.map_append, filter_argstr_params, map_name_params,
             cli_prefix_concrete, cli_mid_concrete, cli_last_concrete]
  simp

/-- C6: ExtractBids copies the app output directory to the destination
dataset-root/derivatives/app-name/sub-row-id; when that destination already
exists the copy fails with FileExistsError, the filesystem is left unchanged
(never silently overwritten); when it does not exist, the copy creates it. -/
theorem c6_derivatives_copy (fs : List String) (dataset_id app_name id : String)
    (outputs : List BidsOutput) (resolve : String → String) :
    derivatives_dest dataset_id app_name id
        = dataset_id ++ "/derivatives/" ++ app_name ++ "/sub-" ++ id ∧
    (derivatives_dest dataset_id app_name id ∈ fs →
      (extract_bids fs dataset_id app_name id outputs resolve).2.2
          = Except.error PyError.fileExistsError ∧
      (extract_bids fs dataset_id app_name id outputs resolve).1 = fs) ∧
    (derivatives_dest dataset_id app_name id ∉ fs →
      (extract_bids fs dataset_id app_name id outputs resolve).1
          = derivatives_dest dataset_id app_name id :: fs) := by
  refine ⟨rfl, ?_, ?_⟩
  · intro h
    unfold extract_bids copytree
    rw [if_pos h]
    exact ⟨rfl, rfl⟩
  · intro h
    simp only [extract_bids, copytree, if_neg h]
    cases extract_return outputs (List.map (fun o => resolve o.name) outputs) <;> rfl

/-- C6 witness: the theorem applied at a filesystem already holding the
destination (the copy fails fatally) and at one not holding it (the copy
lands at the derivatives-convention path). -/
theorem c6_witness :
    (extract_bids ["/data/derivatives/myapp/sub-01"] "/data" "myapp" "01" []
        (fun _ => "x")).2.2 = Except.error PyError.fileExistsError ∧
    (extract_bids [] "/data" "myapp" "01" [] (fun _ => "x")).1
        = [derivatives_dest "/data" "myapp" "01"] :=
  ⟨((c6_derivatives_copy ["/data/derivatives/myapp/sub-01"] "/data" "myapp" "01" []
      (fun _ => "x")).2.1 (by decide)).1,
   (c6_derivatives_copy [] "/data" "myapp" "01" [] (fun _ => "x")).2.2 (by decide)⟩

/-- C8: every input whose provided value is the absent marker is skipped —
its name is warned and it contributes no row write — every provided value is
written to the row, every row write stems from a provided value, and ToBids
returns completion True regardless. -/
theorem c8_absent_warned_present_written (vals : List (String × Option String))
    (n v : String) :
    ((n, some v) ∈ vals → (n, v) ∈ (to_bids_row_writes vals).1) ∧
    ((n, none) ∈ vals → n ∈ (to_bids_row_writes vals).2) ∧
    (∀ m : String × String, m ∈ (to_bids_row_writes vals).1 → (m.1, some m.2) ∈ vals) ∧
    (to_bids vals).2 = true := by
  refine ⟨?_, ?_, ?_, rfl⟩
  · intro h
    rw [to_bids_row_writes_eq]
    exact List.mem_filterMap.mpr ⟨(n, some v), h, rfl⟩
  · intro h
    rw [to_bids_row_writes_eq]
    exact List.mem_filterMap.mpr ⟨(n, none), h, rfl⟩
  · intro m hm
    rw [to_bids_row_writes_eq] at hm
    obtain ⟨⟨a, b⟩, hab, hfb⟩ := List.mem_filterMap.mp hm
    cases b with
    | none => simp at hfb
    | some w =>
      simp only [Option.map_some'] at hfb
      cases hfb
      simpa using hab

/-- C8 witness: the theorem applied to one provided and one absent input. -/
theorem c8_witness :
    ("t1w", "/tmp/in.nii.gz") ∈ (to_bids_row_writes
        [("t1w", some "/tmp/in.nii.gz"), ("bold", none)]).1 ∧
    "bold" ∈ (to_bids_row_writes
        [("t1w", some "/tmp/in.nii.gz"), ("bold", none)]).2 :=
  ⟨(c8_absent_warned_present_written [("t1w", some "/tmp/in.nii.gz"), ("bold", none)]
      "t1w" "/tmp/in.nii.gz").1 (by decide),
   (c8_absent_warned_present_written [("t1w", some "/tmp/in.nii.gz"), ("bold", none)]
      "bold" "x").2.1 (by decide)⟩

/-- C9 counterexample: with exactly one output descriptor the value the task
yields — bound to its single declared output slot "completed" — is the bare
resolved value, which is not the boolean completion signal the claim says
accompanies the return: no completion signal is returned alongside the
value. -/
theorem c9_counterexample :
    (extract_bids [] "/data" "myapp" "01"
        [{ name := "rec", datatype := "Directory", path := some "freesurfer/recon-all" }]
        (fun _ => "/val")).2.2
      = Except.ok [("completed", TaskVal.path "/val")] ∧
    TaskVal.path "/val" ≠ TaskVal.boolVal true :=
  ⟨rfl, by decide⟩

/-- C9 amended: with at least one output descriptor ExtractBids returns the
single resolved value when there is exactly one output and the ordered tuple
of resolved values when there is more than one; the return carries no
separate completion boolean — the task's single declared output slot, named
"completed", receives the resolved value or tuple itself. -/
theorem c9_single_or_tuple (fs : List String) (dataset_id app_name id : String)
    (o : BidsOutput) (rest : List BidsOutput) (resolve : String → String)
    (h : derivatives_dest dataset_id app_name id ∉ fs) :
    (rest = [] →
      (extract_bids fs dataset_id app_name id (o :: rest) resolve).2.2
        = Except.ok [("completed", TaskVal.path (resolve o.name))]) ∧
    (rest ≠ [] →
      (extract_bids fs dataset_id app_name id (o :: rest) resolve).2.2
        = Except.ok [("completed",
            TaskVal.pathTuple ((o :: rest).map (fun x => resolve x.name)))]) := by
  constructor
  · rintro rfl
    unfold extract_bids copytree
    rw [if_neg h]
    rfl
  · intro hrest
    obtain ⟨o2, rest2, rfl⟩ := List.exists_cons_of_ne_nil hrest
    have hlen : 1 < (o :: o2 :: rest2).length := by
      simp [List.length_cons]
    simp [extract_bids, copytree, if_neg h, extract_return, hlen]

/-- C9 witness: the amended theorem applied at a one-output and a two-output
configuration. -/
theorem c9_witness :
    (extract_bids [] "/data" "myapp" "01"
        [{ name := "rec", datatype := "Directory", path := some "freesurfer/recon-all" }]
        (fun n => "/val/" ++ n)).2.2
      = Except.ok [("completed", TaskVal.path "/val/rec")] ∧
    (extract_bids [] "/data" "myapp" "01"
        [{ name := "rec", datatype := "Directory", path := some "freesurfer/recon-all" },
         { name := "conf", datatype := "Text" }]
        (fun n => "/val/" ++ n)).2.2
      = Except.ok [("completed", TaskVal.pathTuple ["/val/rec", "/val/conf"])] := by
  constructor
  · exact (c9_single_or_tuple [] "/data" "myapp" "01"
      { name := "rec", datatype := "Directory", path := some "freesurfer/recon-all" } []
      (fun n => "/val/" ++ n) (by decide)).1 rfl
  · exact (c9_single_or_tuple [] "/data" "myapp" "01"
      { name := "rec", datatype := "Directory", path := some "freesurfer/recon-all" }
      [{ name := "conf", datatype := "Text" }]
      (fun n => "/val/" ++ n) (by decide)).2 (by decide)

/-- C10: with an empty output descriptor list ExtractBids performs the
directory copy (the destination appears in the filesystem), registers no
sink, and then raises IndexError from indexing the empty output-paths list
instead of returning a value. -/
theorem c10_empty_outputs_index_error (fs : List String)
    (dataset_id app_name id : String) (resolve : String → String)
    (h : derivatives_dest dataset_id app_name id ∉ fs) :
    (extract_bids fs dataset_id app_name id [] resolve).1
        = derivatives_dest dataset_id app_name id :: fs ∧
    (extract_bids fs dataset_id app_name id [] resolve).2.1 = [] ∧
    (extract_bids fs dataset_id app_name id [] resolve).2.2
        = Except.error PyError.indexError := by
  unfold extract_bids copytree
  rw [if_neg h]
  exact ⟨rfl, rfl, rfl⟩

/-- C10 witness: the theorem applied at an empty filesystem. -/
theorem c10_witness :
    (extract_bids [] "/data" "myapp" "01" [] (fun _ => "x")).2.2
        = Except.error PyError.indexError :=
  (c10_empty_outputs_index_error [] "/data" "myapp" "01" (fun _ => "x") (by decide)).2.2

end BidsAppWrapper
